import Mathlib

/-!
Shallow embedding of the command bridge in src/nuke_bridge.py.

The script reads a command name and an optional JSON argument string from
the process arguments, dispatches to one of four handlers (create_node,
set_knob_value, get_node, execute) against the host scripting API of the
compositing application, and prints exactly one JSON response envelope.

Modelling decisions:
- JSON values are the inductive NukeBridge.Json; JSON numbers are modelled
  as integers (the argument values exercised by the bridge are names,
  frame numbers and knob values).
- A printed envelope is a Json value; a handler returns the list of
  envelopes it prints (one print per respond call) together with the
  host state after its side effects.
- A Python exception escaping a handler is an Except.error; main's
  top-level try/except catches it and prints the catch-all envelope.
- The host module (import nuke) is external to the repository; it is
  modelled by the Host structure: a list of nodes (each with name, class,
  position, knobs and wired inputs), a counter for host-assigned default
  node names, the table of creatable node types with their default knobs,
  a render log recording each nuke.execute call with its frame bounds,
  and an optional failure for the render call. Knob reads and writes can
  raise, via the val and setFails fields of Knob.
-/

namespace NukeBridge

/-- JSON values (numbers modelled as integers). -/
inductive Json where
  | null : Json
  | bool : Bool → Json
  | num : Int → Json
  | str : String → Json
  | arr : List Json → Json
  | obj : List (String × Json) → Json

/-- Python str() of a JSON value, used by the f-string error messages. -/
def pyStr : Json → String
  | .null => "None"
  | .bool true => "True"
  | .bool false => "False"
  | .num n => toString n
  | .str s => s
  | .arr _ => "[...]"
  | .obj _ => "\x7b...\x7d"

/-- Substring occurrence test on character lists. -/
def infixCheck (p : List Char) : List Char → Bool
  | [] => p.isEmpty
  | c :: rest => p.isPrefixOf (c :: rest) || infixCheck p rest

/-- Python membership test (key in args). On a dict it tests the keys, on a
list it compares against the elements (only string elements can equal a
string key), on a string it is a substring test; on the remaining JSON
values it raises TypeError (not iterable). -/
def pyContains (j : Json) (key : String) : Except String Bool :=
  match j with
  | .obj kvs => .ok (kvs.any (fun p => p.1 == key))
  | .arr xs => .ok (xs.any (fun x => match x with | .str s => s == key | _ => false))
  | .str s => .ok (infixCheck key.toList s.toList)
  | .null => .error "argument of type NoneType is not iterable"
  | .bool _ => .error "argument of type bool is not iterable"
  | .num _ => .error "argument of type int is not iterable"

/-- Python subscript args[key] with a string key: dict lookup (KeyError if
absent), TypeError on any other JSON value. -/
def pyGetItem (j : Json) (key : String) : Except String Json :=
  match j with
  | .obj kvs =>
    match kvs.find? (fun p => p.1 == key) with
    | some kv => .ok kv.2
    | none => .error ("KeyError: " ++ key)
  | .arr _ => .error "list indices must be integers or slices, not str"
  | .str _ => .error "string indices must be integers"
  | .null => .error "NoneType object is not subscriptable"
  | .bool _ => .error "bool object is not subscriptable"
  | .num _ => .error "int object is not subscriptable"

/-- Python args.get(key): returns None when the key is absent; raises
AttributeError when args is not a dict. -/
def pyDictGet (j : Json) (key : String) : Except String (Option Json) :=
  match j with
  | .obj kvs => .ok ((kvs.find? (fun p => p.1 == key)).map (fun p => p.2))
  | _ => .error "object has no attribute get"

/-- Python args.get(key, default). -/
def pyDictGetD (j : Json) (key : String) (d : Json) : Except String Json :=
  match j with
  | .obj kvs =>
    match kvs.find? (fun p => p.1 == key) with
    | some kv => .ok kv.2
    | none => .ok d
  | _ => .error "object has no attribute get"

/-- Python truthiness of an optional JSON value (None, null, False, 0, the
empty string, the empty list and the empty dict are falsy). -/
def pyTruthyO : Option Json → Bool
  | none => false
  | some .null => false
  | some (.bool b) => b
  | some (.num n) => n != 0
  | some (.str s) => s != ""
  | some (.arr xs) => !xs.isEmpty
  | some (.obj kvs) => !kvs.isEmpty

/-- Python iteration (for x in j): a list yields its elements, a string its
characters, a dict its keys; the remaining JSON values raise TypeError. -/
def pyIter : Json → Except String (List Json)
  | .arr xs => .ok xs
  | .str s => .ok (s.toList.map (fun c => Json.str (String.mk [c])))
  | .obj kvs => .ok (kvs.map (fun kv => Json.str kv.1))
  | .null => .error "NoneType object is not iterable"
  | .bool _ => .error "bool object is not iterable"
  | .num _ => .error "int object is not iterable"

/-- Accumulate a decimal digit run; None on a non-digit character. -/
def digitsToNat (acc : Nat) : List Char → Option Nat
  | [] => some acc
  | c :: cs => if c.isDigit then digitsToNat (acc * 10 + (c.toNat - 48)) cs else none

/-- Parse an optional sign followed by a non-empty digit run. -/
def parseIntChars : List Char → Option Int
  | [] => none
  | c :: cs =>
    if c == '-' then
      match cs with
      | [] => none
      | _ => (digitsToNat 0 cs).map (fun n => -(n : Int))
    else if c == '+' then
      match cs with
      | [] => none
      | _ => (digitsToNat 0 cs).map (fun n => (n : Int))
    else
      (digitsToNat 0 (c :: cs)).map (fun n => (n : Int))

/-- Strip leading and trailing whitespace from a character list. -/
def stripWs (l : List Char) : List Char :=
  ((l.dropWhile Char.isWhitespace).reverse.dropWhile Char.isWhitespace).reverse

/-- Python int() coercion of a JSON value: integers pass through, booleans
become 0/1, numeric strings (optionally signed and padded with
whitespace) are parsed; None, non-numeric strings, lists and dicts
raise. (Digit-group underscores are not modelled.) -/
def pyInt : Json → Except String Int
  | .num n => .ok n
  | .bool b => .ok (if b then 1 else 0)
  | .str s =>
    match parseIntChars (stripWs s.toList) with
    | some n => .ok n
    | none => .error ("invalid literal for int() with base 10: " ++ s)
  | .null => .error "int() argument must be a string or a number, not NoneType"
  | .arr _ => .error "int() argument must be a string or a number, not list"
  | .obj _ => .error "int() argument must be a string or a number, not dict"

/-- A knob (parameter) of a node: its reported class, its value (reading
may raise, modelling k.value() failures), and whether setValue raises. -/
structure Knob where
  klass : String
  val : Except String Json
  setFails : Option String

/-- A node in the host session graph. The name knob is modelled by the
name field; setInput calls are logged in order as (slot, input node name)
pairs in the inputs field. -/
structure Node where
  name : String
  klass : String
  xpos : Int
  ypos : Int
  knobs : List (String × Knob)
  inputs : List (Nat × String)

/-- The host (nuke) session state. -/
structure Host where
  nodes : List Node
  counter : Nat
  nodeTypes : List (String × List (String × Knob))
  renderLog : List (String × Int × Int)
  renderFails : Option String

/-- nuke.toNode: find the first node with the given name, None if absent. -/
def Host.toNode (h : Host) (name : String) : Option Node :=
  h.nodes.find? (fun n => n.name == name)

/-- nuke.toNode applied to an arbitrary JSON value: raises TypeError
unless the argument is a string. -/
def toNodeJ (h : Host) (j : Json) : Except String (Option Node) :=
  match j with
  | .str s => .ok (h.toNode s)
  | _ => .error "toNode argument 1 must be str"

/-- Fallback node, returned by Host.lastNode on an empty graph (never the
case after a successful nuke.createNode). -/
def defaultNode : Node :=
  { name := "", klass := "", xpos := 0, ypos := 0, knobs := [], inputs := [] }

/-- The most recently created node (the Python node variable aliases the
last element of the session's node list). -/
def Host.lastNode (h : Host) : Node :=
  h.nodes.getLastD defaultNode

/-- Mutate the node object bound in the handler (the last node of the
session graph), modelling Python object aliasing. -/
def Host.updateLast (h : Host) (f : Node → Node) : Host :=
  { h with nodes := h.nodes.dropLast ++ (h.nodes.getLast?.map f).toList }

/-- The node object nuke.createNode builds: host-assigned default name
(class name followed by the bumped counter), the class's default knobs,
nothing wired. -/
def freshNode (t : String) (counter : Nat) (protoKnobs : List (String × Knob)) : Node :=
  { name := t ++ toString (counter + 1), klass := t, xpos := 0, ypos := 0,
    knobs := protoKnobs, inputs := [] }

/-- nuke.createNode(node_type, inpanel=False): raises TypeError on a
non-string argument, raises on an unknown node class, otherwise appends a
fresh node carrying the host-assigned default name and the class's
default knobs. -/
def Host.createNode (h : Host) (t : Json) : Except String Host :=
  match t with
  | .str s =>
    match h.nodeTypes.find? (fun p => p.1 == s) with
    | none => .error ("createNode unknown node class: " ++ s)
    | some proto =>
      .ok
        { h with
          nodes := h.nodes ++ [freshNode s h.counter proto.2],
          counter := h.counter + 1 }
  | _ => .error "createNode argument 1 must be str"

/-- node["name"].setValue(name): raises TypeError on a non-string value,
otherwise renames the node object bound in create_node (name comes from
args.get, hence the Option). -/
def renameLast (h : Host) (name : Option Json) : Except String Host :=
  match name with
  | some (.str s) => .ok (h.updateLast (fun n => { n with name := s }))
  | _ => .error "name knob setValue argument must be str"

/-- node.setInput(i, input_node) on the node bound in create_node: logs
the wiring call on that node. -/
def Host.setInputLast (h : Host) (i : Nat) (inputName : String) : Host :=
  h.updateLast (fun n => { n with inputs := n.inputs ++ [(i, inputName)] })

/-- nuke.execute(node, start, end): raises when the host render fails,
otherwise logs the render call with its integer frame bounds. -/
def Host.render (h : Host) (n : Node) (fs fe : Int) : Except String Host :=
  match h.renderFails with
  | some e => .error e
  | none => .ok { h with renderLog := h.renderLog ++ [(n.name, fs, fe)] }

/-- Update the first knob with the given name. -/
def updateFirstKnob (kname : String) (f : Knob → Knob) :
    List (String × Knob) → List (String × Knob)
  | [] => []
  | (k, kb) :: rest =>
    if k == kname then (k, f kb) :: rest else (k, kb) :: updateFirstKnob kname f rest

/-- node[kname].setValue(v) applied to the node object: stores the value. -/
def Node.setKnobVal (n : Node) (kname : String) (v : Json) : Node :=
  { n with knobs := updateFirstKnob kname (fun kb => { kb with val := Except.ok v }) n.knobs }

/-- Update the first node satisfying the predicate. -/
def updateFirstNode (p : Node → Bool) (f : Node → Node) : List Node → List Node
  | [] => []
  | n :: rest => if p n then f n :: rest else n :: updateFirstNode p f rest

/-- Store a knob value on the named node in the session (the object found
by nuke.toNode is the first node with that name). -/
def Host.setKnobVal (h : Host) (nn kname : String) (v : Json) : Host :=
  { h with nodes := updateFirstNode (fun n => n.name == nn) (fun n => n.setKnobVal kname v) h.nodes }

/-- Read back a knob value through a fresh lookup, for stating what a
mutation did. -/
def Host.knobValue (h : Host) (nn kname : String) : Option (Except String Json) :=
  (h.toNode nn).bind (fun n => (n.knobs.find? (fun p => p.1 == kname)).map (fun p => p.2.val))

/-- respond(success, data, error): build the envelope; the error key is
added only when the error string is truthy (non-None and non-empty). The
envelope is the printed JSON object. -/
def respond (success : Bool) (data : Json) (error : Option String) : Json :=
  match error with
  | some e =>
    if e == "" then Json.obj [("success", Json.bool success), ("data", data)]
    else Json.obj [("success", Json.bool success), ("data", data), ("error", Json.str e)]
  | none => Json.obj [("success", Json.bool success), ("data", data)]

/-- respond(False, None, e), the failure envelope. -/
def respondFail (e : String) : Json :=
  respond false Json.null (some e)

/-- The node_info payload of create_node (name, type, position). -/
def nodeInfo (n : Node) : Json :=
  Json.obj [("name", Json.str n.name), ("type", Json.str n.klass),
    ("position", Json.obj [("x", Json.num n.xpos), ("y", Json.num n.ypos)])]

/-- Outcome of the input-wiring loop of create_node: finished, stopped at
a missing input node (the respond/return path), or a Python exception
raised inside the loop. Each outcome carries the host state reached. -/
inductive WireOutcome where
  | done : Host → WireOutcome
  | missing : Host → String → WireOutcome
  | exn : Host → String → WireOutcome

/-- for i, input_name in enumerate(inputs): looks up each input by name in
the current session; wires it to slot i when found, stops with the
missing-input response otherwise; a non-string element raises TypeError
at the nuke.toNode call. -/
def wireLoop (h : Host) (i : Nat) : List Json → WireOutcome
  | [] => .done h
  | x :: rest =>
    match x with
    | .str nm =>
      match h.toNode nm with
      | some _ => wireLoop (h.setInputLast i nm) (i + 1) rest
      | none => .missing h nm
    | _ => .exn h "toNode argument 1 must be str"

/-- The host states reached by wiring the listed input names to
consecutive slots starting at i0 (the state create_node reaches after
each successful setInput call). -/
def applyWires (h : Host) (i0 : Nat) : List String → Host
  | [] => h
  | nm :: rest => applyWires (h.setInputLast i0 nm) (i0 + 1) rest

/-- create_node(args, nuke). The membership test and the arg reads before
the try block can raise on a non-dict args value (Except.error escapes to
main); everything inside the try block is converted to the
"Error creating node" envelope. -/
def create_node (args : Json) (h : Host) : Except String (List Json × Host) :=
  match pyContains args "nodeType" with
  | .error e => .error e
  | .ok hasType =>
    if hasType = false then
      .ok ([respondFail "nodeType parameter is required"], h)
    else
      match pyGetItem args "nodeType" with
      | .error e => .error e
      | .ok node_type =>
        match pyDictGet args "name" with
        | .error e => .error e
        | .ok name =>
          match pyDictGetD args "inputs" (Json.arr []) with
          | .error e => .error e
          | .ok inputs =>
            match h.createNode node_type with
            | .error e => .ok ([respondFail ("Error creating node: " ++ e)], h)
            | .ok h1 =>
              match (if pyTruthyO name then renameLast h1 name else .ok h1) with
              | .error e => .ok ([respondFail ("Error creating node: " ++ e)], h1)
              | .ok h2 =>
                match pyIter inputs with
                | .error e => .ok ([respondFail ("Error creating node: " ++ e)], h2)
                | .ok elts =>
                  match wireLoop h2 0 elts with
                  | .missing h3 nm => .ok ([respondFail ("Input node not found: " ++ nm)], h3)
                  | .exn h3 e => .ok ([respondFail ("Error creating node: " ++ e)], h3)
                  | .done h3 => .ok ([respond true (nodeInfo h3.lastNode) none], h3)

/-- The try block of set_knob_value: nuke.toNode lookup (TypeError on a
non-string name), the falsy-node check, the knob_name in node.knobs()
membership test (dict membership: a list or dict key raises TypeError,
any other non-string key is simply absent), then setValue and the echo
payload; every raise is converted to the "Error setting knob value"
envelope. -/
def set_knob_value_try (node_name knob_name value : Json) (h : Host) :
    Except String (List Json × Host) :=
  match node_name with
  | .str nn =>
    match h.toNode nn with
    | none => .ok ([respondFail ("Node not found: " ++ nn)], h)
    | some node =>
      match knob_name with
      | .arr _ => .ok ([respondFail "Error setting knob value: unhashable type: list"], h)
      | .obj _ => .ok ([respondFail "Error setting knob value: unhashable type: dict"], h)
      | .str kn =>
        match node.knobs.find? (fun p => p.1 == kn) with
        | none => .ok ([respondFail ("Knob not found: " ++ kn)], h)
        | some kb =>
          match kb.2.setFails with
          | some e => .ok ([respondFail ("Error setting knob value: " ++ e)], h)
          | none =>
            .ok ([respond true (Json.obj [("node", node_name), ("knob", knob_name),
              ("value", value)]) none], h.setKnobVal nn kn value)
      | other => .ok ([respondFail ("Knob not found: " ++ pyStr other)], h)
  | _ => .ok ([respondFail "Error setting knob value: toNode argument 1 must be str"], h)

/-- set_knob_value(args, nuke). Three required-key checks in order, then
the arg reads (all before the try block), then the try block. -/
def set_knob_value (args : Json) (h : Host) : Except String (List Json × Host) :=
  match pyContains args "nodeName" with
  | .error e => .error e
  | .ok c1 =>
    if c1 = false then
      .ok ([respondFail "nodeName parameter is required"], h)
    else
      match pyContains args "knobName" with
      | .error e => .error e
      | .ok c2 =>
        if c2 = false then
          .ok ([respondFail "knobName parameter is required"], h)
        else
          match pyContains args "value" with
          | .error e => .error e
          | .ok c3 =>
            if c3 = false then
              .ok ([respondFail "value parameter is required"], h)
            else
              match pyGetItem args "nodeName" with
              | .error e => .error e
              | .ok node_name =>
                match pyGetItem args "knobName" with
                | .error e => .error e
                | .ok knob_name =>
                  match pyGetItem args "value" with
                  | .error e => .error e
                  | .ok value => set_knob_value_try node_name knob_name value h

/-- Whether a knob class is one of the serialized scalar classes (the
two elif branches of the source have identical bodies, so their class
lists are merged into one disjunction, in source order). -/
def isScalarClass (c : String) : Bool :=
  c == "String_Knob" || c == "File_Knob" || c == "Text_Knob" || c == "Int_Knob"
    || c == "Double_Knob" || c == "Boolean_Knob" || c == "XY_Knob"

/-- The knobs snapshot loop of get_node: a knob's value is included when
its reported class is one of the scalar knob classes and the k.value()
read succeeds; any other class, or a raising read, is skipped. -/
def collectKnobs : List (String × Knob) → List (String × Json)
  | [] => []
  | (kname, k) :: rest =>
    if isScalarClass k.klass then
      match k.val with
      | .ok v => (kname, v) :: collectKnobs rest
      | .error _ => collectKnobs rest
    else
      collectKnobs rest

/-- The node_info payload of get_node: identity, position and the
best-effort knobs snapshot. -/
def nodeInfoFull (n : Node) : Json :=
  Json.obj [("name", Json.str n.name), ("type", Json.str n.klass),
    ("position", Json.obj [("x", Json.num n.xpos), ("y", Json.num n.ypos)]),
    ("knobs", Json.obj (collectKnobs n.knobs))]

/-- get_node(args, nuke): the required-key check and the arg read before
the try block, then lookup (TypeError on a non-string name), the
falsy-node check, and the snapshot payload inside the try block. -/
def get_node (args : Json) (h : Host) : Except String (List Json × Host) :=
  match pyContains args "nodeName" with
  | .error e => .error e
  | .ok c1 =>
    if c1 = false then
      .ok ([respondFail "nodeName parameter is required"], h)
    else
      match pyGetItem args "nodeName" with
      | .error e => .error e
      | .ok node_name =>
        match node_name with
        | .str nn =>
          match h.toNode nn with
          | none => .ok ([respondFail ("Node not found: " ++ nn)], h)
          | some node => .ok ([respond true (nodeInfoFull node) none], h)
        | _ => .ok ([respondFail "Error getting node info: toNode argument 1 must be str"], h)

/-- The try block of execute: nuke.toNode lookup (TypeError on a
non-string name), the falsy-node check, the Write-class check, the two
int() coercions (left to right), the nuke.execute render call, and the
payload whose frameRange echoes the raw argument values and whose
outputPath reads the node's file knob; every raise is converted to the
"Error executing write node" envelope. -/
def execute_try (write_node_name frame_start frame_end : Json) (h : Host) :
    Except String (List Json × Host) :=
  match write_node_name with
  | .str wn =>
    match h.toNode wn with
    | none => .ok ([respondFail ("Write node not found: " ++ wn)], h)
    | some node =>
      if node.klass != "Write" then
        .ok ([respondFail ("Node " ++ wn ++ " is not a Write node")], h)
      else
        match pyInt frame_start with
        | .error e => .ok ([respondFail ("Error executing write node: " ++ e)], h)
        | .ok fs =>
          match pyInt frame_end with
          | .error e => .ok ([respondFail ("Error executing write node: " ++ e)], h)
          | .ok fe =>
            match h.render node fs fe with
            | .error e => .ok ([respondFail ("Error executing write node: " ++ e)], h)
            | .ok h1 =>
              match node.knobs.find? (fun p => p.1 == "file") with
              | none => .ok ([respondFail "Error executing write node: KeyError: file"], h1)
              | some fk =>
                match fk.2.val with
                | .error e => .ok ([respondFail ("Error executing write node: " ++ e)], h1)
                | .ok fv =>
                  .ok ([respond true (Json.obj [("node", write_node_name),
                    ("rendered", Json.bool true),
                    ("frameRange", Json.obj [("start", frame_start), ("end", frame_end)]),
                    ("outputPath", fv)]) none], h1)
  | _ => .ok ([respondFail "Error executing write node: toNode argument 1 must be str"], h)

/-- execute(args, nuke). Three required-key checks in order, then the arg
reads (all before the try block), then the try block. -/
def execute (args : Json) (h : Host) : Except String (List Json × Host) :=
  match pyContains args "writeNodeName" with
  | .error e => .error e
  | .ok c1 =>
    if c1 = false then
      .ok ([respondFail "writeNodeName parameter is required"], h)
    else
      match pyContains args "frameRangeStart" with
      | .error e => .error e
      | .ok c2 =>
        if c2 = false then
          .ok ([respondFail "frameRangeStart parameter is required"], h)
        else
          match pyContains args "frameRangeEnd" with
          | .error e => .error e
          | .ok c3 =>
            if c3 = false then
              .ok ([respondFail "frameRangeEnd parameter is required"], h)
            else
              match pyGetItem args "writeNodeName" with
              | .error e => .error e
              | .ok write_node_name =>
                match pyGetItem args "frameRangeStart" with
                | .error e => .error e
                | .ok frame_start =>
                  match pyGetItem args "frameRangeEnd" with
                  | .error e => .error e
                  | .ok frame_end => execute_try write_node_name frame_start frame_end h

/-- The command dispatch of main: exact string match on the command name,
unknown names get the "Unknown command" envelope. -/
def dispatch (command : String) (args : Json) (h : Host) : Except String (List Json × Host) :=
  if command == "createNode" then create_node args h
  else if command == "setKnobValue" then set_knob_value args h
  else if command == "getNode" then get_node args h
  else if command == "execute" then execute args h
  else .ok ([respondFail ("Unknown command: " ++ command)], h)

/-- main(): argv is sys.argv (argv[0] the script path); loads models
json.loads on the second argument (Except.error is a JSONDecodeError);
nukeImport models import nuke (none is an ImportError, some h the live
session). The result is the list of printed envelopes and the host state
after the invocation (none when the host was never imported). A handler
exception (Except.error) is caught by the top-level try/except and
converted to the catch-all envelope, so main always returns normally. -/
def main (argv : List String) (loads : String → Except String Json)
    (nukeImport : Option Host) : List Json × Option Host :=
  if argv.length < 2 then
    ([respondFail "No command specified"], none)
  else
    match (if argv.length > 2 then loads (argv.getD 2 "") else .ok (Json.obj [])) with
    | .error e => ([respondFail ("Invalid JSON arguments: " ++ e)], none)
    | .ok args =>
      match nukeImport with
      | none =>
        ([respondFail "Failed to import nuke module. Make sure this script is run within Nuke."],
          none)
      | some h =>
        match dispatch (argv.getD 1 "") args h with
        | .ok r => (r.1, some r.2)
        | .error e => ([respondFail ("Error executing command: " ++ e)], some h)

/-- Key lookup in a printed envelope (None when the key is absent or the
value is not an object). -/
def getKey? (j : Json) (k : String) : Option Json :=
  match j with
  | .obj kvs => (kvs.find? (fun p => p.1 == k)).map (fun p => p.2)
  | _ => none

/-- The two envelope shapes the bridge ever prints: a success envelope
with a payload and no error key, or a failure envelope with a null data
field and a non-empty error message. -/
def goodEnv (e : Json) : Prop :=
  (∃ d, e = respond true d none) ∨ ∃ msg, e = respondFail msg ∧ msg ≠ ""

/-- Whether the key occurs in an argument mapping. -/
def hasKeyB (kvs : List (String × Json)) (k : String) : Bool :=
  kvs.any (fun p => p.1 == k)

/-- Fixture: a knob with a readable value that never raises. -/
def sampleKnob (c : String) (v : Json) : Knob :=
  { klass := c, val := .ok v, setFails := none }

/-- Fixture: a Read node with scalar, non-scalar and raising knobs. -/
def sampleRead : Node :=
  { name := "Read1", klass := "Read", xpos := 10, ypos := 20,
    knobs := [("name", sampleKnob "String_Knob" (.str "Read1")),
      ("file", sampleKnob "File_Knob" (.str "/in.exr")),
      ("matrix", sampleKnob "Matrix_Knob" (.num 1)),
      ("bad", { klass := "Int_Knob", val := .error "boom", setFails := none })],
    inputs := [] }

/-- Fixture: a Write node. -/
def sampleWrite : Node :=
  { name := "W1", klass := "Write", xpos := 0, ypos := 0,
    knobs := [("file", sampleKnob "File_Knob" (.str "/out.exr"))], inputs := [] }

/-- Fixture: a host session with two nodes and two creatable classes. -/
def sampleHost : Host :=
  { nodes := [sampleRead, sampleWrite], counter := 3,
    nodeTypes := [("Blur", [("size", sampleKnob "Double_Knob" (.num 0))]),
      ("Write", [("file", sampleKnob "File_Knob" (.str ""))])],
    renderLog := [], renderFails := none }

/-- Fixture: a json.loads stand-in that parses everything to the empty
object. -/
def loadsEmpty : String → Except String Json :=
  fun _ => .ok (Json.obj [])

/-- Fixture: the node created by nuke.createNode("Blur") on the sample
host (counter was 3, so the host-assigned default name is Blur4). -/
def sampleBlurNode : Node :=
  { name := "Blur4", klass := "Blur", xpos := 0, ypos := 0,
    knobs := [("size", sampleKnob "Double_Knob" (Json.num 0))], inputs := [] }

/-- Fixture: the sample host after creating a Blur node. -/
def sampleHostAfterBlur : Host :=
  { sampleHost with nodes := sampleHost.nodes ++ [sampleBlurNode], counter := 4 }

/-- Appending to a non-empty string cannot give the empty string. -/
theorem append_ne_empty (a b : String) (ha : a ≠ "") : a ++ b ≠ "" := by
  intro hab
  apply ha
  have hd := congrArg String.data hab
  rw [String.data_append] at hd
  have h0 : a.data = [] := (List.append_eq_nil.mp hd).1
  cases a
  simp_all

/-- Every result of create_node prints exactly one envelope, of one of
the two legal shapes. -/
theorem create_node_out (args : Json) (h : Host) (r : List Json × Host)
    (hc : create_node args h = .ok r) : ∃ e, r.1 = [e] ∧ goodEnv e := by
  unfold create_node at hc
  repeat' split at hc
  all_goals
    first
      | exact Except.noConfusion hc
      | (obtain rfl := (Except.ok.inj hc).symm
         exact ⟨_, rfl, Or.inl ⟨_, rfl⟩⟩)
      | (obtain rfl := (Except.ok.inj hc).symm
         exact ⟨_, rfl, Or.inr ⟨_, rfl, by decide⟩⟩)
      | (obtain rfl := (Except.ok.inj hc).symm
         exact ⟨_, rfl, Or.inr ⟨_, rfl, append_ne_empty _ _ (by decide)⟩⟩)

/-- Every result of set_knob_value prints exactly one envelope, of one of
the two legal shapes. -/
theorem set_knob_value_out (args : Json) (h : Host) (r : List Json × Host)
    (hc : set_knob_value args h = .ok r) : ∃ e, r.1 = [e] ∧ goodEnv e := by
  unfold set_knob_value set_knob_value_try at hc
  repeat' split at hc
  all_goals
    first
      | exact Except.noConfusion hc
      | (obtain rfl := (Except.ok.inj hc).symm
         exact ⟨_, rfl, Or.inl ⟨_, rfl⟩⟩)
      | (obtain rfl := (Except.ok.inj hc).symm
         exact ⟨_, rfl, Or.inr ⟨_, rfl, by decide⟩⟩)
      | (obtain rfl := (Except.ok.inj hc).symm
         exact ⟨_, rfl, Or.inr ⟨_, rfl, append_ne_empty _ _ (by decide)⟩⟩)

/-- Every result of get_node prints exactly one envelope, of one of the
two legal shapes. -/
theorem get_node_out (args : Json) (h : Host) (r : List Json × Host)
    (hc : get_node args h = .ok r) : ∃ e, r.1 = [e] ∧ goodEnv e := by
  unfold get_node at hc
  repeat' split at hc
  all_goals
    first
      | exact Except.noConfusion hc
      | (obtain rfl := (Except.ok.inj hc).symm
         exact ⟨_, rfl, Or.inl ⟨_, rfl⟩⟩)
      | (obtain rfl := (Except.ok.inj hc).symm
         exact ⟨_, rfl, Or.inr ⟨_, rfl, by decide⟩⟩)
      | (obtain rfl := (Except.ok.inj hc).symm
         exact ⟨_, rfl, Or.inr ⟨_, rfl, append_ne_empty _ _ (by decide)⟩⟩)

/-- Every result of execute prints exactly one envelope, of one of the
two legal shapes. -/
theorem execute_out (args : Json) (h : Host) (r : List Json × Host)
    (hc : execute args h = .ok r) : ∃ e, r.1 = [e] ∧ goodEnv e := by
  unfold execute execute_try at hc
  repeat' split at hc
  all_goals
    first
      | exact Except.noConfusion hc
      | (obtain rfl := (Except.ok.inj hc).symm
         exact ⟨_, rfl, Or.inl ⟨_, rfl⟩⟩)
      | (obtain rfl := (Except.ok.inj hc).symm
         exact ⟨_, rfl, Or.inr ⟨_, rfl, by decide⟩⟩)
      | (obtain rfl := (Except.ok.inj hc).symm
         exact ⟨_, rfl, Or.inr ⟨_, rfl, append_ne_empty _ _ (by decide)⟩⟩)
      | (obtain rfl := (Except.ok.inj hc).symm
         exact ⟨_, rfl, Or.inr ⟨_, rfl, append_ne_empty _ _ (append_ne_empty _ _ (by decide))⟩⟩)

/-- Every result of the dispatch prints exactly one envelope, of one of
the two legal shapes. -/
theorem dispatch_out (command : String) (args : Json) (h : Host) (r : List Json × Host)
    (hc : dispatch command args h = .ok r) : ∃ e, r.1 = [e] ∧ goodEnv e := by
  unfold dispatch at hc
  repeat' split at hc
  all_goals
    first
      | exact create_node_out _ _ _ hc
      | exact set_knob_value_out _ _ _ hc
      | exact get_node_out _ _ _ hc
      | exact execute_out _ _ _ hc
      | (obtain rfl := (Except.ok.inj hc).symm
         exact ⟨_, rfl, Or.inr ⟨_, rfl, append_ne_empty _ _ (by decide)⟩⟩)

/-- main prints exactly one envelope, of one of the two legal shapes. -/
theorem main_out (argv : List String) (loads : String → Except String Json)
    (nukeImport : Option Host) : ∃ e, (main argv loads nukeImport).1 = [e] ∧ goodEnv e := by
  unfold main
  split
  · exact ⟨_, rfl, Or.inr ⟨_, rfl, by decide⟩⟩
  · split
    · exact ⟨_, rfl, Or.inr ⟨_, rfl, append_ne_empty _ _ (by decide)⟩⟩
    · split
      · exact ⟨_, rfl, Or.inr ⟨_, rfl, by decide⟩⟩
      · split
        · next r heq => exact dispatch_out _ _ _ _ heq
        · exact ⟨_, rfl, Or.inr ⟨_, rfl, append_ne_empty _ _ (by decide)⟩⟩

/-- Claim C1: for every process invocation of main — any command name,
any argument string, any json.loads outcome, host available or not, and
any exception raised inside a handler (an Except.error reaching main's
top-level try/except) — exactly one response envelope is printed; main
is a total function, so it always returns normally. -/
theorem main_prints_exactly_one_envelope (argv : List String)
    (loads : String → Except String Json) (nukeImport : Option Host) :
    (main argv loads nukeImport).1.length = 1 := by
  obtain ⟨e, he, -⟩ := main_out argv loads nukeImport
  rw [he]
  rfl

/-- Claim C2, counterexample: with no command argument, the printed
envelope is not the two-key object of the claim — the actual envelope
also carries a "data" key. -/
theorem no_command_envelope_has_data_key :
    (main ["nuke_bridge.py"] loadsEmpty none).1 ≠
      [Json.obj [("success", Json.bool false), ("error", Json.str "No command specified")]] := by
  intro hmain
  have h1 : respondFail "No command specified" =
      Json.obj [("success", Json.bool false), ("error", Json.str "No command specified")] := by
    injection hmain
  have h2 : ([("success", Json.bool false), ("data", Json.null),
      ("error", Json.str "No command specified")] : List (String × Json)) =
      [("success", Json.bool false), ("error", Json.str "No command specified")] := by
    injection (show Json.obj [("success", Json.bool false), ("data", Json.null),
      ("error", Json.str "No command specified")] =
      Json.obj [("success", Json.bool false), ("error", Json.str "No command specified")]
      from h1)
  have h3 := congrArg List.length h2
  simp at h3

/-- Claim C2 as amended: with no command argument the printed response is
exactly the object with keys success, data and error, in that order, with
values false, null and "No command specified". -/
theorem no_command_response_amended (argv : List String)
    (loads : String → Except String Json) (nukeImport : Option Host)
    (h : argv.length < 2) :
    (main argv loads nukeImport).1 =
      [Json.obj [("success", Json.bool false), ("data", Json.null),
        ("error", Json.str "No command specified")]] := by
  unfold main
  rw [if_pos h]
  rfl

/-- Witness for the amended claim C2 at a concrete invocation. -/
theorem no_command_response_amended_witness :
    (main ["nuke_bridge.py"] loadsEmpty none).1 =
      [Json.obj [("success", Json.bool false), ("data", Json.null),
        ("error", Json.str "No command specified")]] :=
  no_command_response_amended ["nuke_bridge.py"] loadsEmpty none (by decide)

/-- A failure envelope with a non-empty message has the three-key shape. -/
theorem respondFail_eq_obj (msg : String) (hmsg : msg ≠ "") :
    respondFail msg = Json.obj [("success", Json.bool false), ("data", Json.null),
      ("error", Json.str msg)] := by
  have hb : (msg == "") = false := beq_eq_false_iff_ne.mpr hmsg
  unfold respondFail respond
  simp [hb]

/-- Claim C8: every printed envelope contains a success key and a data
key, the data value is null on every failure, and an error key is
present exactly when success is false (success envelopes never carry an
error key). -/
theorem envelope_shape_invariant (argv : List String)
    (loads : String → Except String Json) (nukeImport : Option Host) (e : Json)
    (he : e ∈ (main argv loads nukeImport).1) :
    (getKey? e "success").isSome ∧ (getKey? e "data").isSome ∧
      (getKey? e "success" = some (Json.bool false) → getKey? e "data" = some Json.null) ∧
      ((getKey? e "error").isSome ↔ getKey? e "success" = some (Json.bool false)) := by
  obtain ⟨x, hx, hgood⟩ := main_out argv loads nukeImport
  rw [hx, List.mem_singleton] at he
  subst he
  rcases hgood with ⟨d, rfl⟩ | ⟨msg, rfl, hmsg⟩
  · refine ⟨rfl, rfl, ?_, ?_⟩
    · intro hcontra
      have h1 : Json.bool true = Json.bool false := Option.some.inj hcontra
      have h2 : true = false := by injection h1
      exact absurd h2 (by decide)
    · constructor
      · intro h0
        exact absurd h0 (by simp [getKey?, respond])
      · intro hcontra
        have h1 : Json.bool true = Json.bool false := Option.some.inj hcontra
        have h2 : true = false := by injection h1
        exact absurd h2 (by decide)
  · rw [respondFail_eq_obj msg hmsg]
    exact ⟨rfl, rfl, fun _ => rfl, by simp [getKey?]⟩

/-- Witness for claim C8 at a concrete invocation. -/
theorem envelope_shape_invariant_witness :
    (getKey? (respondFail "No command specified") "success").isSome ∧
      (getKey? (respondFail "No command specified") "data").isSome ∧
      (getKey? (respondFail "No command specified") "success" = some (Json.bool false) →
        getKey? (respondFail "No command specified") "data" = some Json.null) ∧
      ((getKey? (respondFail "No command specified") "error").isSome ↔
        getKey? (respondFail "No command specified") "success" = some (Json.bool false)) :=
  envelope_shape_invariant ["nuke_bridge.py"] loadsEmpty none
    (respondFail "No command specified") (by exact List.mem_singleton.mpr rfl)

/-- Claim C3: each operation validates its required keys in the
documented order before touching the host; on the first missing key it
responds with the corresponding failure envelope and returns the host
state unchanged (no host-API call, no side effect), for every host. -/
theorem missing_required_key_first_error (kvs : List (String × Json)) (h : Host) :
    (hasKeyB kvs "nodeType" = false →
      create_node (Json.obj kvs) h = .ok ([respondFail "nodeType parameter is required"], h)) ∧
    (hasKeyB kvs "nodeName" = false →
      set_knob_value (Json.obj kvs) h = .ok ([respondFail "nodeName parameter is required"], h)) ∧
    (hasKeyB kvs "nodeName" = true → hasKeyB kvs "knobName" = false →
      set_knob_value (Json.obj kvs) h = .ok ([respondFail "knobName parameter is required"], h)) ∧
    (hasKeyB kvs "nodeName" = true → hasKeyB kvs "knobName" = true →
      hasKeyB kvs "value" = false →
      set_knob_value (Json.obj kvs) h = .ok ([respondFail "value parameter is required"], h)) ∧
    (hasKeyB kvs "nodeName" = false →
      get_node (Json.obj kvs) h = .ok ([respondFail "nodeName parameter is required"], h)) ∧
    (hasKeyB kvs "writeNodeName" = false →
      execute (Json.obj kvs) h = .ok ([respondFail "writeNodeName parameter is required"], h)) ∧
    (hasKeyB kvs "writeNodeName" = true → hasKeyB kvs "frameRangeStart" = false →
      execute (Json.obj kvs) h =
        .ok ([respondFail "frameRangeStart parameter is required"], h)) ∧
    (hasKeyB kvs "writeNodeName" = true → hasKeyB kvs "frameRangeStart" = true →
      hasKeyB kvs "frameRangeEnd" = false →
      execute (Json.obj kvs) h = .ok ([respondFail "frameRangeEnd parameter is required"], h)) := by
  have q : ∀ k, pyContains (Json.obj kvs) k = .ok (hasKeyB kvs k) := fun k => rfl
  refine ⟨?_, ?_, ?_, ?_, ?_, ?_, ?_, ?_⟩
  · intro h1
    simp [create_node, q, h1]
  · intro h1
    simp [set_knob_value, q, h1]
  · intro h1 h2
    simp [set_knob_value, q, h1, h2]
  · intro h1 h2 h3
    simp [set_knob_value, q, h1, h2, h3]
  · intro h1
    simp [get_node, q, h1]
  · intro h1
    simp [execute, q, h1]
  · intro h1 h2
    simp [execute, q, h1, h2]
  · intro h1 h2 h3
    simp [execute, q, h1, h2, h3]

/-- Witness for claim C3: setKnobValue with only nodeName present reports
knobName as the first missing key and leaves the host untouched. -/
theorem missing_required_key_first_error_witness :
    set_knob_value (Json.obj [("nodeName", Json.str "Read1")]) sampleHost =
      .ok ([respondFail "knobName parameter is required"], sampleHost) :=
  (missing_required_key_first_error [("nodeName", Json.str "Read1")] sampleHost).2.2.1 rfl rfl

/-- Updating the first node matched by a name predicate commutes with
find?, when the update preserves the predicate. -/
theorem find?_updateFirstNode (p : Node → Bool) (f : Node → Node) (l : List Node)
    (hf : ∀ n, p (f n) = p n) :
    (updateFirstNode p f l).find? p = (l.find? p).map f := by
  induction l with
  | nil => rfl
  | cons a t ih =>
    unfold updateFirstNode
    by_cases hpa : p a = true
    · rw [if_pos hpa]
      rw [List.find?_cons_of_pos _ (by rw [hf]; exact hpa), List.find?_cons_of_pos _ hpa]
      rfl
    · rw [if_neg hpa]
      have hpa' : p a = false := by revert hpa; cases p a <;> simp
      rw [List.find?_cons_of_neg _ (by rw [hpa']; simp),
        List.find?_cons_of_neg _ (by rw [hpa']; simp)]
      exact ih

/-- Updating the first knob with a given name commutes with find?. -/
theorem find?_updateFirstKnob (kn : String) (f : Knob → Knob) (ks : List (String × Knob)) :
    (updateFirstKnob kn f ks).find? (fun p => p.1 == kn) =
      (ks.find? (fun p => p.1 == kn)).map (fun p => (p.1, f p.2)) := by
  induction ks with
  | nil => rfl
  | cons a t ih =>
    obtain ⟨k, kb⟩ := a
    unfold updateFirstKnob
    by_cases hk : (k == kn) = true
    · rw [if_pos hk]
      rw [List.find?_cons_of_pos _ (by exact hk), List.find?_cons_of_pos _ (by exact hk)]
      rfl
    · have hk' : (k == kn) = false := by revert hk; cases k == kn <;> simp
      rw [if_neg hk]
      rw [List.find?_cons_of_neg _ (by rw [hk']; simp),
        List.find?_cons_of_neg _ (by rw [hk']; simp)]
      exact ih

/-- After Host.setKnobVal, reading the knob back through a fresh lookup
gives the stored value. -/
theorem knobValue_setKnobVal (h : Host) (nn kn : String) (v : Json) (node : Node)
    (kb : String × Knob) (hn : h.toNode nn = some node)
    (hk : node.knobs.find? (fun p => p.1 == kn) = some kb) :
    (h.setKnobVal nn kn v).knobValue nn kn = some (.ok v) := by
  unfold Host.knobValue Host.setKnobVal Host.toNode
  rw [find?_updateFirstNode (fun n : Node => n.name == nn)
    (fun n => n.setKnobVal kn v) h.nodes (fun n => rfl)]
  unfold Host.toNode at hn
  rw [hn]
  simp [Node.setKnobVal, find?_updateFirstKnob, hk]

/-- Claim C6: setKnobValue fails naming the node when no node has the
given name (host unchanged); fails with a knob-not-found envelope when
the node exists but lacks the knob (host unchanged); otherwise stores
the value and echoes node, knob and value in the success payload, with a
fresh lookup reading back the stored value. -/
theorem set_knob_value_lookup_behavior (nn kn : String) (v : Json) (h : Host) :
    (h.toNode nn = none →
      set_knob_value
          (Json.obj [("nodeName", Json.str nn), ("knobName", Json.str kn), ("value", v)]) h =
        .ok ([respondFail ("Node not found: " ++ nn)], h)) ∧
    (∀ node, h.toNode nn = some node → node.knobs.find? (fun p => p.1 == kn) = none →
      set_knob_value
          (Json.obj [("nodeName", Json.str nn), ("knobName", Json.str kn), ("value", v)]) h =
        .ok ([respondFail ("Knob not found: " ++ kn)], h)) ∧
    (∀ node kb, h.toNode nn = some node →
      node.knobs.find? (fun p => p.1 == kn) = some kb → kb.2.setFails = none →
      set_knob_value
          (Json.obj [("nodeName", Json.str nn), ("knobName", Json.str kn), ("value", v)]) h =
        .ok ([respond true (Json.obj [("node", Json.str nn), ("knob", Json.str kn),
          ("value", v)]) none], h.setKnobVal nn kn v) ∧
      (h.setKnobVal nn kn v).knobValue nn kn = some (.ok v)) := by
  refine ⟨?_, ?_, ?_⟩
  · intro h1
    simp [set_knob_value, set_knob_value_try, pyContains, pyGetItem, h1]
  · intro node h1 h2
    simp [set_knob_value, set_knob_value_try, pyContains, pyGetItem, h1, h2]
  · intro node kb h1 h2 h3
    constructor
    · simp [set_knob_value, set_knob_value_try, pyContains, pyGetItem, h1, h2, h3]
    · exact knobValue_setKnobVal h nn kn v node kb h1 h2

/-- Witness for claim C6 at a concrete host: setting the file knob on
the Read node succeeds, echoes the arguments, and stores the value. -/
theorem set_knob_value_lookup_behavior_witness :
    set_knob_value (Json.obj [("nodeName", Json.str "Read1"), ("knobName", Json.str "file"),
        ("value", Json.str "/new.exr")]) sampleHost =
      .ok ([respond true (Json.obj [("node", Json.str "Read1"), ("knob", Json.str "file"),
        ("value", Json.str "/new.exr")]) none],
        sampleHost.setKnobVal "Read1" "file" (Json.str "/new.exr")) ∧
    (sampleHost.setKnobVal "Read1" "file" (Json.str "/new.exr")).knobValue "Read1" "file" =
      some (.ok (Json.str "/new.exr")) :=
  (set_knob_value_lookup_behavior "Read1" "file" (Json.str "/new.exr") sampleHost).2.2
    sampleRead ("file", sampleKnob "File_Knob" (Json.str "/in.exr")) rfl rfl rfl

/-- Claim C5: execute on an existing node whose class is not "Write"
responds with the not-a-Write-node failure envelope and never invokes
the host render (host state, hence render log, unchanged); on a Write
node with coercible bounds and a working renderer, the render is
invoked over exactly the integer-coerced frame bounds. -/
theorem execute_write_class_check (wn : String) (fs fe : Json) (h : Host) :
    (∀ node, h.toNode wn = some node → node.klass ≠ "Write" →
      execute (Json.obj [("writeNodeName", Json.str wn), ("frameRangeStart", fs),
          ("frameRangeEnd", fe)]) h =
        .ok ([respondFail ("Node " ++ wn ++ " is not a Write node")], h)) ∧
    (∀ node a b, h.toNode wn = some node → node.klass = "Write" →
      pyInt fs = .ok a → pyInt fe = .ok b → h.renderFails = none →
      ∃ outs h1,
        execute (Json.obj [("writeNodeName", Json.str wn), ("frameRangeStart", fs),
            ("frameRangeEnd", fe)]) h = .ok (outs, h1) ∧
        h1.renderLog = h.renderLog ++ [(node.name, a, b)]) := by
  have hred : execute (Json.obj [("writeNodeName", Json.str wn), ("frameRangeStart", fs),
      ("frameRangeEnd", fe)]) h = execute_try (Json.str wn) fs fe h := rfl
  constructor
  · intro node h1 h2
    have hb : (node.klass != "Write") = true := bne_iff_ne.mpr h2
    rw [hred]
    simp [execute_try, h1, hb]
  · intro node a b h1 h2 h3 h4 h5
    have hb : (node.klass != "Write") = false := by simp [h2]
    rw [hred]
    simp only [execute_try]
    rw [h1]
    simp only [hb, Bool.false_eq_true, if_false, h3, h4, Host.render, h5]
    cases hfind : node.knobs.find? (fun p => p.1 == "file") with
    | none => exact ⟨_, _, rfl, rfl⟩
    | some fk =>
      dsimp only
      cases hval : fk.2.val with
      | error e => exact ⟨_, _, rfl, rfl⟩
      | ok fv => exact ⟨_, _, rfl, rfl⟩

/-- Witness for claim C5: executing the Read node is rejected with the
not-a-Write-node envelope and an unchanged host. -/
theorem execute_write_class_check_witness :
    execute (Json.obj [("writeNodeName", Json.str "Read1"), ("frameRangeStart", Json.num 1),
        ("frameRangeEnd", Json.num 10)]) sampleHost =
      .ok ([respondFail "Node Read1 is not a Write node"], sampleHost) :=
  (execute_write_class_check "Read1" (Json.num 1) (Json.num 10) sampleHost).1
    sampleRead rfl (by decide)

/-- Claim C9: the host render receives the int-coerced bounds while the
success payload's frameRange echoes the frameRangeStart and
frameRangeEnd argument values exactly as supplied; if coercing either
bound raises, the response is a failure envelope and the host state
(hence the render log) is unchanged. -/
theorem execute_frame_range_echo (wn : String) (fs fe : Json) (h : Host) :
    (∀ node a b fk fv, h.toNode wn = some node → node.klass = "Write" →
      pyInt fs = .ok a → pyInt fe = .ok b → h.renderFails = none →
      node.knobs.find? (fun p => p.1 == "file") = some fk → fk.2.val = .ok fv →
      execute (Json.obj [("writeNodeName", Json.str wn), ("frameRangeStart", fs),
          ("frameRangeEnd", fe)]) h =
        .ok ([respond true (Json.obj [("node", Json.str wn), ("rendered", Json.bool true),
          ("frameRange", Json.obj [("start", fs), ("end", fe)]), ("outputPath", fv)]) none],
          { h with renderLog := h.renderLog ++ [(node.name, a, b)] })) ∧
    (∀ node e, h.toNode wn = some node → node.klass = "Write" → pyInt fs = .error e →
      execute (Json.obj [("writeNodeName", Json.str wn), ("frameRangeStart", fs),
          ("frameRangeEnd", fe)]) h =
        .ok ([respondFail ("Error executing write node: " ++ e)], h)) ∧
    (∀ node a e, h.toNode wn = some node → node.klass = "Write" → pyInt fs = .ok a →
      pyInt fe = .error e →
      execute (Json.obj [("writeNodeName", Json.str wn), ("frameRangeStart", fs),
          ("frameRangeEnd", fe)]) h =
        .ok ([respondFail ("Error executing write node: " ++ e)], h)) := by
  have hred : execute (Json.obj [("writeNodeName", Json.str wn), ("frameRangeStart", fs),
      ("frameRangeEnd", fe)]) h = execute_try (Json.str wn) fs fe h := rfl
  refine ⟨?_, ?_, ?_⟩
  · intro node a b fk fv h1 h2 h3 h4 h5 h6 h7
    have hb : (node.klass != "Write") = false := by simp [h2]
    rw [hred]
    simp only [execute_try]
    rw [h1]
    simp only [hb, Bool.false_eq_true, if_false, h3, h4, Host.render, h5, h6, h7]
  · intro node e h1 h2 h3
    have hb : (node.klass != "Write") = false := by simp [h2]
    rw [hred]
    simp only [execute_try]
    rw [h1]
    simp only [hb, Bool.false_eq_true, if_false, h3]
  · intro node a e h1 h2 h3 h4
    have hb : (node.klass != "Write") = false := by simp [h2]
    rw [hred]
    simp only [execute_try]
    rw [h1]
    simp only [hb, Bool.false_eq_true, if_false, h3, h4]

/-- Witness for claim C9: rendering the Write node with a string start
bound "1" coerces to (1, 10) in the render log while the payload echoes
the raw "1". -/
theorem execute_frame_range_echo_witness :
    execute (Json.obj [("writeNodeName", Json.str "W1"), ("frameRangeStart", Json.str "1"),
        ("frameRangeEnd", Json.num 10)]) sampleHost =
      .ok ([respond true (Json.obj [("node", Json.str "W1"), ("rendered", Json.bool true),
        ("frameRange", Json.obj [("start", Json.str "1"), ("end", Json.num 10)]),
        ("outputPath", Json.str "/out.exr")]) none],
        { sampleHost with renderLog := sampleHost.renderLog ++ [("W1", 1, 10)] }) :=
  (execute_frame_range_echo "W1" (Json.str "1") (Json.num 10) sampleHost).1
    sampleWrite 1 10 ("file", sampleKnob "File_Knob" (Json.str "/out.exr"))
    (Json.str "/out.exr") rfl rfl rfl rfl rfl rfl rfl

/-- Membership characterization of the get_node knobs snapshot: a pair
is in the snapshot exactly when the node has a knob of that name whose
class is scalar and whose read succeeds with that value. -/
theorem mem_collectKnobs (ks : List (String × Knob)) (kn : String) (v : Json) :
    (kn, v) ∈ collectKnobs ks ↔
      ∃ kb, (kn, kb) ∈ ks ∧ isScalarClass kb.klass = true ∧ kb.val = Except.ok v := by
  induction ks with
  | nil => simp [collectKnobs]
  | cons a t ih =>
    obtain ⟨k, kb⟩ := a
    simp only [collectKnobs]
    by_cases hsc : isScalarClass kb.klass = true
    · rw [if_pos hsc]
      cases hval : kb.val with
      | ok w =>
        simp only [List.mem_cons, Prod.mk.injEq, ih]
        constructor
        · rintro (⟨rfl, rfl⟩ | ⟨kb2, hm, h1, h2⟩)
          · exact ⟨kb, Or.inl ⟨rfl, rfl⟩, hsc, hval⟩
          · exact ⟨kb2, Or.inr hm, h1, h2⟩
        · rintro ⟨kb2, ⟨rfl, rfl⟩ | hm, h1, h2⟩
          · rw [hval] at h2
            exact Or.inl ⟨rfl, (Except.ok.inj h2).symm⟩
          · exact Or.inr ⟨kb2, hm, h1, h2⟩
      | error e =>
        constructor
        · intro hmem
          obtain ⟨kb2, hm, h1, h2⟩ := ih.mp hmem
          exact ⟨kb2, List.mem_cons_of_mem _ hm, h1, h2⟩
        · rintro ⟨kb2, hm, h1, h2⟩
          rw [List.mem_cons, Prod.mk.injEq] at hm
          rcases hm with ⟨rfl, rfl⟩ | hm
          · rw [hval] at h2
            exact Except.noConfusion h2
          · exact ih.mpr ⟨kb2, hm, h1, h2⟩
    · rw [if_neg hsc]
      constructor
      · intro hmem
        obtain ⟨kb2, hm, h1, h2⟩ := ih.mp hmem
        exact ⟨kb2, List.mem_cons_of_mem _ hm, h1, h2⟩
      · rintro ⟨kb2, hm, h1, h2⟩
        rw [List.mem_cons, Prod.mk.injEq] at hm
        rcases hm with ⟨rfl, rfl⟩ | hm
        · exact absurd h1 hsc
        · exact ih.mpr ⟨kb2, hm, h1, h2⟩

/-- Claim C7: getNode on an existing node responds success: true with
identity, position and a knobs map that contains a parameter exactly
when its reported class is scalar and its read succeeds; non-scalar
parameters and parameters whose read raises are omitted without error. -/
theorem get_node_scalar_snapshot (nn : String) (node : Node) (h : Host)
    (hn : h.toNode nn = some node) :
    get_node (Json.obj [("nodeName", Json.str nn)]) h =
      .ok ([respond true (nodeInfoFull node) none], h) ∧
    ∀ kn v, ((kn, v) ∈ collectKnobs node.knobs ↔
      ∃ kb, (kn, kb) ∈ node.knobs ∧ isScalarClass kb.klass = true ∧ kb.val = Except.ok v) := by
  constructor
  · simp [get_node, pyContains, pyGetItem, hn]
  · intro kn v
    exact mem_collectKnobs node.knobs kn v

/-- Witness for claim C7: querying the Read node (which has scalar,
non-scalar and raising knobs) succeeds with the snapshot payload. -/
theorem get_node_scalar_snapshot_witness :
    get_node (Json.obj [("nodeName", Json.str "Read1")]) sampleHost =
      .ok ([respond true (nodeInfoFull sampleRead) none], sampleHost) :=
  (get_node_scalar_snapshot "Read1" sampleRead sampleHost rfl).1

/-- Unfolding of a successful nuke.createNode: the session gains exactly
one node, appended last, carrying the host-assigned default name built
from the class and the bumped counter, with no wired inputs. -/
theorem createNode_ok_elim (h h2 : Host) (t : String)
    (hcreate : h.createNode (Json.str t) = .ok h2) :
    ∃ proto, h.nodeTypes.find? (fun p => p.1 == t) = some proto ∧
      h2 =
        { h with
          nodes := h.nodes ++ [freshNode t h.counter proto.2],
          counter := h.counter + 1 } := by
  unfold Host.createNode at hcreate
  dsimp only at hcreate
  cases hfind : h.nodeTypes.find? (fun p => p.1 == t) with
  | none =>
    rw [hfind] at hcreate
    exact Except.noConfusion hcreate
  | some proto =>
    rw [hfind] at hcreate
    exact ⟨proto, rfl, (Except.ok.inj hcreate).symm⟩

/-- Claim C10: when the supplied name value is falsy, the rename step is
skipped: create_node succeeds, the created node keeps the host-assigned
default name (class followed by the bumped counter), and the payload
reports that default name. -/
theorem create_node_falsy_name_keeps_default (t : String) (nv : Json) (h h2 : Host)
    (hcreate : h.createNode (Json.str t) = .ok h2)
    (hfalsy : pyTruthyO (some nv) = false) :
    create_node (Json.obj [("nodeType", Json.str t), ("name", nv)]) h =
      .ok ([respond true (nodeInfo h2.lastNode) none], h2) ∧
    h2.lastNode.name = t ++ toString (h.counter + 1) := by
  constructor
  · simp [create_node, pyContains, pyGetItem, pyDictGet, pyDictGetD, hcreate, hfalsy,
      pyIter, wireLoop]
  · obtain ⟨proto, -, rfl⟩ := createNode_ok_elim h h2 t hcreate
    simp [Host.lastNode, List.getLastD_eq_getLast?, List.getLast?_concat, freshNode]

/-- Witness for claim C10: creating a Blur with name given as the empty
string keeps and reports the default name Blur4. -/
theorem create_node_falsy_name_keeps_default_witness :
    create_node (Json.obj [("nodeType", Json.str "Blur"), ("name", Json.str "")]) sampleHost =
      .ok ([respond true (nodeInfo sampleHostAfterBlur.lastNode) none], sampleHostAfterBlur) ∧
    sampleHostAfterBlur.lastNode.name = "Blur" ++ toString (sampleHost.counter + 1) :=
  create_node_falsy_name_keeps_default "Blur" (Json.str "") sampleHost sampleHostAfterBlur
    (by rfl) rfl

/-- find? through the drop-last-and-reattach shape of updateLast: a
predicate-preserving update of the last element does not change whether
find? succeeds. -/
theorem find?_isSome_dropLast_concat (p : Node → Bool) (f : Node → Node)
    (hf : ∀ n, p (f n) = p n) :
    ∀ l : List Node,
      ((l.dropLast ++ (l.getLast?.map f).toList).find? p).isSome = (l.find? p).isSome
  | [] => rfl
  | [a] => by
    by_cases hpa : p a = true
    · rw [show ([a].dropLast ++ ([a].getLast?.map f).toList) = [f a] from rfl]
      rw [List.find?_cons_of_pos _ (by rw [hf]; exact hpa), List.find?_cons_of_pos _ hpa]
      rfl
    · have hpa' : p a = false := by revert hpa; cases p a <;> simp
      rw [show ([a].dropLast ++ ([a].getLast?.map f).toList) = [f a] from rfl]
      rw [List.find?_cons_of_neg _ (by rw [hf, hpa']; simp),
        List.find?_cons_of_neg _ (by rw [hpa']; simp)]
  | a :: b :: t => by
    have ih := find?_isSome_dropLast_concat p f hf (b :: t)
    have hshape : ((a :: b :: t).dropLast ++ ((a :: b :: t).getLast?.map f).toList)
        = a :: ((b :: t).dropLast ++ ((b :: t).getLast?.map f).toList) := by
      rw [List.getLast?_cons_cons]
      rfl
    rw [hshape]
    by_cases hpa : p a = true
    · rw [List.find?_cons_of_pos _ hpa, List.find?_cons_of_pos _ hpa]
    · have hpa' : p a = false := by revert hpa; cases p a <;> simp
      rw [List.find?_cons_of_neg _ (by rw [hpa']; simp),
        List.find?_cons_of_neg _ (by rw [hpa']; simp)]
      exact ih

/-- A name-preserving update of the bound node does not change whether a
toNode lookup succeeds. -/
theorem toNode_isSome_updateLast (h : Host) (f : Node → Node)
    (hf : ∀ n, (f n).name = n.name) (x : String) :
    ((h.updateLast f).toNode x).isSome = (h.toNode x).isSome :=
  find?_isSome_dropLast_concat (fun n => n.name == x) f (fun n => by simp [hf]) h.nodes

/-- setInput only logs the wiring call, so node lookups are unaffected. -/
theorem toNode_isSome_setInputLast (h : Host) (i : Nat) (nm x : String) :
    ((h.setInputLast i nm).toNode x).isSome = (h.toNode x).isSome := by
  unfold Host.setInputLast
  exact toNode_isSome_updateLast h
    (fun n => { n with inputs := n.inputs ++ [(i, nm)] }) (fun _ => rfl) x

/-- Wiring any list of inputs leaves node lookups unaffected. -/
theorem toNode_isSome_applyWires :
    ∀ (names : List String) (h : Host) (i0 : Nat) (x : String),
      ((applyWires h i0 names).toNode x).isSome = (h.toNode x).isSome
  | [], _, _, _ => rfl
  | nm :: rest, h, i0, x => by
    rw [show applyWires h i0 (nm :: rest) = applyWires (h.setInputLast i0 nm) (i0 + 1) rest
      from rfl]
    rw [toNode_isSome_applyWires rest _ _ x]
    exact toNode_isSome_setInputLast h i0 nm x

/-- When every listed input name resolves, the wiring loop finishes and
reaches exactly the applyWires state. -/
theorem wireLoop_all_resolved :
    ∀ (names : List String) (h : Host) (i0 : Nat),
      (∀ nm ∈ names, (h.toNode nm).isSome = true) →
      wireLoop h i0 (names.map Json.str) = .done (applyWires h i0 names)
  | [], _, _, _ => rfl
  | nm :: rest, h, i0, hres => by
    obtain ⟨node, hnode⟩ :=
      Option.isSome_iff_exists.mp (hres nm (List.mem_cons_self _ _))
    rw [show (nm :: rest).map Json.str = Json.str nm :: rest.map Json.str from rfl]
    unfold wireLoop
    dsimp only
    rw [hnode]
    exact wireLoop_all_resolved rest _ _ (fun x hx => by
      rw [toNode_isSome_setInputLast]
      exact hres x (List.mem_cons_of_mem _ hx))

/-- When the names before position i resolve and the name at position i
does not, the wiring loop stops there with the missing-input outcome,
having wired exactly the resolved prefix. -/
theorem wireLoop_stops_at_missing :
    ∀ (pre : List String) (h : Host) (i0 : Nat) (nm : String) (rest : List String),
      (∀ x ∈ pre, (h.toNode x).isSome = true) → (h.toNode nm).isSome = false →
      wireLoop h i0 ((pre ++ nm :: rest).map Json.str) = .missing (applyWires h i0 pre) nm
  | [], h, i0, nm, rest, _, hmiss => by
    have hnone : h.toNode nm = none := by
      cases hn : h.toNode nm with
      | none => rfl
      | some node => rw [hn] at hmiss; exact absurd hmiss (by simp)
    rw [show (([] : List String) ++ nm :: rest).map Json.str
      = Json.str nm :: rest.map Json.str from rfl]
    unfold wireLoop
    dsimp only
    rw [hnone]
    rfl
  | p :: ps, h, i0, nm, rest, hpre, hmiss => by
    obtain ⟨node, hnode⟩ :=
      Option.isSome_iff_exists.mp (hpre p (List.mem_cons_self _ _))
    rw [show ((p :: ps) ++ nm :: rest).map Json.str
      = Json.str p :: (ps ++ nm :: rest).map Json.str from rfl]
    unfold wireLoop
    dsimp only
    rw [hnode]
    exact wireLoop_stops_at_missing ps _ _ nm rest
      (fun x hx => by
        rw [toNode_isSome_setInputLast]
        exact hpre x (List.mem_cons_of_mem _ hx))
      (by rw [toNode_isSome_setInputLast]; exact hmiss)

/-- updateLast preserves the number of nodes. -/
theorem length_nodes_updateLast (h : Host) (f : Node → Node) :
    (h.updateLast f).nodes.length = h.nodes.length := by
  unfold Host.updateLast
  cases hl : h.nodes with
  | nil => rfl
  | cons a t =>
    cases hg : (a :: t).getLast? with
    | none => exact absurd (List.getLast?_eq_none_iff.mp hg) (by simp)
    | some y => simp [List.length_dropLast]

/-- Wiring inputs preserves the number of nodes (no node is removed). -/
theorem applyWires_nodes_length :
    ∀ (names : List String) (h : Host) (i0 : Nat),
      (applyWires h i0 names).nodes.length = h.nodes.length
  | [], _, _ => rfl
  | nm :: rest, h, i0 => by
    rw [show applyWires h i0 (nm :: rest) = applyWires (h.setInputLast i0 nm) (i0 + 1) rest
      from rfl]
    rw [applyWires_nodes_length rest _ _]
    exact length_nodes_updateLast h _

/-- On a non-empty session, updateLast acts on the bound last node. -/
theorem lastNode_updateLast (h : Host) (f : Node → Node) (hne : h.nodes ≠ []) :
    (h.updateLast f).lastNode = f h.lastNode := by
  obtain ⟨y, hy⟩ : ∃ y, h.nodes.getLast? = some y := by
    cases hg : h.nodes.getLast? with
    | none => exact absurd (List.getLast?_eq_none_iff.mp hg) hne
    | some y => exact ⟨y, rfl⟩
  unfold Host.updateLast Host.lastNode
  rw [hy]
  simp [List.getLastD_eq_getLast?, List.getLast?_concat, hy]

/-- The wiring loop appends exactly the (slot, name) pairs of the listed
names, enumerated from the starting slot, to the bound node's input log. -/
theorem applyWires_lastNode_inputs :
    ∀ (names : List String) (h : Host) (i0 : Nat), h.nodes ≠ [] →
      (applyWires h i0 names).lastNode.inputs = h.lastNode.inputs ++ names.enumFrom i0
  | [], h, i0, _ => by simp [applyWires]
  | nm :: rest, h, i0, hne => by
    have hne' : (h.setInputLast i0 nm).nodes ≠ [] := by
      intro hnil
      apply hne
      have hlen := length_nodes_updateLast h
        (fun n => { n with inputs := n.inputs ++ [(i0, nm)] })
      rw [show (h.setInputLast i0 nm).nodes = (h.updateLast
        (fun n => { n with inputs := n.inputs ++ [(i0, nm)] })).nodes from rfl] at hnil
      rw [hnil] at hlen
      exact List.length_eq_zero.mp hlen.symm
    rw [show applyWires h i0 (nm :: rest) = applyWires (h.setInputLast i0 nm) (i0 + 1) rest
      from rfl]
    rw [applyWires_lastNode_inputs rest _ _ hne']
    rw [show (h.setInputLast i0 nm).lastNode
      = (fun n => { n with inputs := n.inputs ++ [(i0, nm)] }) h.lastNode
      from lastNode_updateLast h _ hne]
    simp [List.enumFrom]

/-- Claim C4: createNode with an inputs list wires the listed inputs to
slots in list order; when every name resolves the success payload is
produced with all inputs wired; when the name at position i is the first
that does not resolve, the response is the failure envelope naming that
input, the wired inputs are exactly the prefix before i (no input at a
later index is wired), and the created node is still in the session (no
rollback). -/
theorem create_node_inputs_wiring (t : String) (names : List String) (h h2 : Host)
    (hcreate : h.createNode (Json.str t) = .ok h2) :
    ((∀ nm ∈ names, (h2.toNode nm).isSome = true) →
      create_node (Json.obj [("nodeType", Json.str t),
          ("inputs", Json.arr (names.map Json.str))]) h =
        .ok ([respond true (nodeInfo (applyWires h2 0 names).lastNode) none],
          applyWires h2 0 names) ∧
      (applyWires h2 0 names).lastNode.inputs = names.enum) ∧
    (∀ pre nm rest, names = pre ++ nm :: rest →
      (∀ x ∈ pre, (h2.toNode x).isSome = true) → (h2.toNode nm).isSome = false →
      create_node (Json.obj [("nodeType", Json.str t),
          ("inputs", Json.arr (names.map Json.str))]) h =
        .ok ([respondFail ("Input node not found: " ++ nm)], applyWires h2 0 pre) ∧
      (applyWires h2 0 pre).lastNode.inputs = pre.enum ∧
      (applyWires h2 0 pre).nodes.length = h.nodes.length + 1) := by
  obtain ⟨proto, hfind, hh2⟩ := createNode_ok_elim h h2 t hcreate
  have hne2 : h2.nodes ≠ [] := by
    rw [hh2]
    simp
  have hinit : h2.lastNode.inputs = [] := by
    rw [hh2]
    simp [Host.lastNode, List.getLastD_eq_getLast?, List.getLast?_concat, freshNode]
  constructor
  · intro hres
    constructor
    · simp [create_node, pyContains, pyGetItem, pyDictGet, pyDictGetD, pyIter, hcreate,
        pyTruthyO, wireLoop_all_resolved names h2 0 hres]
    · rw [applyWires_lastNode_inputs names h2 0 hne2, hinit]
      rfl
  · intro pre nm rest heq hpre hmiss
    subst heq
    refine ⟨?_, ?_, ?_⟩
    · have hwl := wireLoop_stops_at_missing pre h2 0 nm rest hpre hmiss
      rw [List.map_append, List.map_cons] at hwl
      simp [create_node, pyContains, pyGetItem, pyDictGet, pyDictGetD, pyIter, hcreate,
        pyTruthyO, hwl]
    · rw [applyWires_lastNode_inputs pre h2 0 hne2, hinit]
      rfl
    · rw [applyWires_nodes_length pre h2 0, hh2]
      simp

/-- Witness for claim C4 at a concrete host: inputs [Read1, Nope] wires
Read1 to slot 0, fails naming Nope, and keeps the created Blur node. -/
theorem create_node_inputs_wiring_witness :
    create_node (Json.obj [("nodeType", Json.str "Blur"),
        ("inputs", Json.arr (["Read1", "Nope"].map Json.str))]) sampleHost =
      .ok ([respondFail ("Input node not found: " ++ "Nope")],
        applyWires sampleHostAfterBlur 0 ["Read1"]) ∧
    (applyWires sampleHostAfterBlur 0 ["Read1"]).lastNode.inputs = ["Read1"].enum ∧
    (applyWires sampleHostAfterBlur 0 ["Read1"]).nodes.length = sampleHost.nodes.length + 1 :=
  (create_node_inputs_wiring "Blur" ["Read1", "Nope"] sampleHost sampleHostAfterBlur
      (by rfl)).2
    ["Read1"] "Nope" [] rfl
    (by
      intro x hx
      rw [List.mem_singleton] at hx
      subst hx
      rfl)
    rfl

end NukeBridge
